import Mathlib

/-!
Verification of the ADT Pulse state-synchronization core
(`custom_components/adtpulse`: `alarm_control_panel.py`, `coordinator.py`).

The development shallowly embeds the two pieces the specification covers:

* the alarm command state machine (`ADTPulseAlarm._perform_alarm_action`,
  `_check_if_system_armable`, the per-command entry points and the
  `alarm_state` resolved-state property), and
* the update coordinator (`ADTPulseDataUpdateCoordinator.async_add_listener`,
  `async_update_listeners` and the `_async_update_data` loop body).

External collaborators are modelled at their boundary: the remote client's
arm/disarm call is an input that either returns a boolean or raises, the
opened/tripped-zone check `system_can_be_armed` (from `utils.py`) is an input
boolean, and the Home Assistant `DataUpdateCoordinator` base-class helpers are
modelled from the contract the source comments document.
-/

set_option autoImplicit false

namespace ADTPulse

/-! ### Alarm state machine (`alarm_control_panel.py`) -/

/-- The values of Home Assistant's `AlarmControlPanelState` enum used by the
source (`DISARMED`, `ARMED_HOME`, `ARMED_AWAY`, `ARMED_NIGHT`,
`ARMED_CUSTOM_BYPASS`, `ARMING`, `DISARMING`). -/
inductive AlarmState where
  | disarmed
  | armed_home
  | armed_away
  | armed_night
  | armed_custom_bypass
  | arming
  | disarming
deriving DecidableEq, Repr, Fintype

/-- `AlarmControlPanelState` is a `StrEnum`; comparisons with plain strings
compare the enum value. These are the enum values from Home Assistant. -/
def AlarmState.value : AlarmState → String
  | .disarmed => "disarmed"
  | .armed_home => "armed_home"
  | .armed_away => "armed_away"
  | .armed_night => "armed_night"
  | .armed_custom_bypass => "armed_custom_bypass"
  | .arming => "arming"
  | .disarming => "disarming"

/-- The remote panel statuses imported from `pyadtpulse.alarm_panel`
(`ADT_ALARM_OFF/AWAY/HOME/NIGHT/ARMING/DISARMING`). -/
inductive ADTStatus where
  | off
  | away
  | home
  | night
  | arming
  | disarming
deriving DecidableEq, Repr, Fintype

/-- The `ALARM_MAP` dictionary of `alarm_control_panel.py`, mapping the remote
status to the Home Assistant state.  It is total over the six imported remote
statuses, so the `.get` lookup in the source always succeeds here. -/
def ALARM_MAP : ADTStatus → AlarmState
  | .arming => .arming
  | .away => .armed_away
  | .disarming => .disarming
  | .home => .armed_home
  | .off => .disarmed
  | .night => .armed_night

/-- The `FORCE_ARM` sentinel string of `alarm_control_panel.py`. -/
def FORCE_ARM : String := "force arm"

/-- The `alarm_state` property: the Assumed State if present, else the mapped
remote status (`ALARM_MAP.get(self._alarm.status)`). -/
def alarm_state (assumed : Option AlarmState) (status : ADTStatus) : AlarmState :=
  match assumed with
  | some s => s
  | none => ALARM_MAP status

/-- The `HomeAssistantError` conditions a command operation can raise. -/
inductive CmdError where
  /-- `Cannot set alarm to ... because currently set to <current>` -/
  | conflictingState (current : AlarmState)
  /-- `ARM_ERROR_MESSAGE`: cannot be armed due to opened/tripped zone. -/
  | cannotArm
  /-- `Could not set alarm status to <target>` -/
  | commandRejected (target : AlarmState)
  /-- an exception raised by the awaited remote call, propagated unchanged -/
  | remoteException
deriving DecidableEq, Repr, Fintype

/-- `_check_if_system_armable(new_state)`: raises `conflictingState` when the
resolved state is not disarmed, and then `cannotArm` when
`not new_state == FORCE_ARM and not system_can_be_armed(site)`.  The source
compares the `AlarmControlPanelState` value passed as `new_state` against the
plain string `FORCE_ARM`, so the comparison is by `StrEnum` value. -/
def check_if_system_armable (current : AlarmState) (new_state : AlarmState)
    (system_can_be_armed : Bool) : Option CmdError :=
  if current ≠ AlarmState.disarmed then
    some (CmdError.conflictingState current)
  else if new_state.value ≠ FORCE_ARM ∧ system_can_be_armed = false then
    some CmdError.cannotArm
  else
    none

/-- Outcome of awaiting the remote `arm`/`disarm` coroutine: a boolean result,
or an exception. -/
inductive RemoteOutcome where
  | ok (success : Bool)
  | exn
deriving DecidableEq, Repr, Fintype

/-- The external inputs one command operation reads: the remote panel status,
the gateway online flag, the result of the opened/tripped-zone check
`system_can_be_armed` (from `utils.py`, an external boolean input here), and
the behaviour of the awaited remote call. -/
structure PanelEnv where
  status : ADTStatus
  gateway_online : Bool
  system_can_be_armed : Bool
  remote : RemoteOutcome
deriving DecidableEq, Repr, Fintype

/-- Observable events of a command operation, in program order:
`publish a` is one `async_write_ha_state()` call made while the Assumed State
is `a`; `remoteCall` is the `await arm_disarm_func` suspension point. -/
inductive TraceEvent where
  | publish (assumed : Option AlarmState)
  | remoteCall
deriving DecidableEq, Repr, Fintype

/-- Result of one command operation: the Assumed State when the operation
returns (or propagates), the event trace, and the error raised, if any. -/
structure CmdOutcome where
  finalAssumed : Option AlarmState
  trace : List TraceEvent
  error : Option CmdError
deriving DecidableEq, Repr

/-- `ADTPulseAlarm._perform_alarm_action(arm_disarm_func, action)`:
for a non-disarm action run `_check_if_system_armable`; then the idempotence
check against the resolved state; then set the Assumed State (directly to the
target when the gateway is offline, else to the transient marker), publish,
await the remote call, clear the Assumed State, publish again, and raise
`commandRejected` when the remote call returned `False`.  When the awaited
call raises, the exception propagates before the clearing assignment runs. -/
def perform_alarm_action (assumed : Option AlarmState) (env : PanelEnv)
    (action : AlarmState) : CmdOutcome :=
  match (if action ≠ AlarmState.disarmed then
           check_if_system_armable (alarm_state assumed env.status) action
             env.system_can_be_armed
         else none) with
  | some e => { finalAssumed := assumed, trace := [], error := some e }
  | none =>
    if alarm_state assumed env.status = action then
      { finalAssumed := assumed, trace := [], error := none }
    else
      let marker : Option AlarmState :=
        if env.gateway_online = false then some action
        else if action = AlarmState.disarmed then some AlarmState.disarming
        else some AlarmState.arming
      match env.remote with
      | RemoteOutcome.exn =>
          { finalAssumed := marker
            trace := [TraceEvent.publish marker, TraceEvent.remoteCall]
            error := some CmdError.remoteException }
      | RemoteOutcome.ok success =>
          { finalAssumed := none
            trace := [TraceEvent.publish marker, TraceEvent.remoteCall,
                      TraceEvent.publish none]
            error := if success = false then some (CmdError.commandRejected action)
                     else none }

/-- The six public command operations of `ADTPulseAlarm`. -/
inductive AlarmCommand where
  | disarm
  | armHome
  | armAway
  | armCustomBypass
  | armNight
  | armForceStay
deriving DecidableEq, Repr, Fintype

/-- The `action` argument each entry point passes to `_perform_alarm_action`:
`async_alarm_arm_custom_bypass` passes `ARMED_CUSTOM_BYPASS` and
`async_alarm_arm_force_stay` passes `ARMED_HOME`. -/
def AlarmCommand.action : AlarmCommand → AlarmState
  | .disarm => .disarmed
  | .armHome => .armed_home
  | .armAway => .armed_away
  | .armCustomBypass => .armed_custom_bypass
  | .armNight => .armed_night
  | .armForceStay => .armed_home

/-- Run one public command operation. -/
def runCommand (cmd : AlarmCommand) (assumed : Option AlarmState)
    (env : PanelEnv) : CmdOutcome :=
  perform_alarm_action assumed env cmd.action

/-! ### Update coordinator (`coordinator.py`) -/

/-- The per-cycle diff payload returned by `wait_for_update`: the tuple
`(alarm_changed, changed_zone_ids)`.  The source stores the zone ids in a
`set`; a list models it, with set-like statements phrased via membership. -/
structure Snapshot where
  alarmChanged : Bool
  changedZones : List Nat
deriving DecidableEq, Repr

/-- `ALARM_CONTEXT` topic key. -/
def ALARM_CONTEXT : String := "Alarm"

/-- `CONNECTION_STATUS_CONTEXT` topic key. -/
def CONNECTION_STATUS_CONTEXT : String := "ConnectionStatus"

/-- `NEXT_REFRESH_CONTEXT` topic key. -/
def NEXT_REFRESH_CONTEXT : String := "NextRefresh"

/-- The zone topic key `ZONE_CONTEXT_PREFIX + str(zone)`. -/
def zoneContext (zone : Nat) : String := "Zone " ++ toString zone

/-- The zone-trouble topic key
`ZONE_CONTEXT_PREFIX + str(zone) + ZONE_TROUBLE_PREFIX`. -/
def zoneTroubleContext (zone : Nat) : String :=
  "Zone " ++ toString zone ++ " Trouble"

/-- Listener state of the coordinator.  Callbacks are identified by numbers.
`baseListeners` is the listener collection of the Home Assistant
`DataUpdateCoordinator` base class, which `super().async_add_listener` appends
to and whose deregistration handle removes from; `listenerDict` is the
subclass's `_listener_dictionary`, a dict keyed by the topic context. -/
structure ListenerRegistry where
  baseListeners : List (Nat × String)
  listenerDict : List (String × Nat)
deriving DecidableEq, Repr

/-- A coordinator with no registered listeners. -/
def emptyRegistry : ListenerRegistry := { baseListeners := [], listenerDict := [] }

/-- Python dict assignment `d[k] = v`: replace the entry for `k` when present,
else append. -/
def dictInsert : List (String × Nat) → String → Nat → List (String × Nat)
  | [], k, v => [(k, v)]
  | p :: rest, k, v =>
      if p.1 = k then (k, v) :: rest else p :: dictInsert rest k v

/-- Python dict lookup `d[k]`, `none` meaning `KeyError`. -/
def dictLookup : List (String × Nat) → String → Option Nat
  | [], _ => none
  | p :: rest, k => if p.1 = k then some p.2 else dictLookup rest k

/-- Number of entries a key has in the modelled dict (a real dict has at most
one; `dictInsert` preserves that). -/
def countKey : List (String × Nat) → String → Nat
  | [], _ => 0
  | p :: rest, k => (if p.1 = k then 1 else 0) + countKey rest k

/-- `ADTPulseDataUpdateCoordinator.async_add_listener(update_callback,
context)`: stores the callback in `_listener_dictionary[context]` (replacing
any existing entry) and calls `super().async_add_listener`, which appends the
callback to the base-class listener collection. -/
def async_add_listener (reg : ListenerRegistry) (context : String)
    (update_callback : Nat) : ListenerRegistry :=
  { baseListeners := reg.baseListeners ++ [(update_callback, context)]
    listenerDict := dictInsert reg.listenerDict context update_callback }

/-- The `for zones in data_to_update[1]` loop body of
`async_update_listeners`: invoke the zone listener then the zone-trouble
listener for each changed zone id; `none` models the `KeyError` of a missing
topic. -/
def zoneCallbacks (d : List (String × Nat)) : List Nat → Option (List Nat)
  | [] => some []
  | z :: zs => do
      let a ← dictLookup d (zoneContext z)
      let b ← dictLookup d (zoneTroubleContext z)
      let rest ← zoneCallbacks d zs
      pure (a :: b :: rest)

/-- `ADTPulseDataUpdateCoordinator.async_update_listeners`, given the value of
`self.data` at call time.  `if not self.data` is true exactly for `None`
(the data is otherwise a nonempty tuple, which is truthy): then the base class
`async_update_listeners` invokes every registered listener.  Otherwise the
alarm listener is invoked when `data[0]` is set, the zone and zone-trouble
listeners for each id in `data[1]`, and then the connection-status and
next-refresh listeners.  The result is the list of invoked callbacks in
order; `none` models a `KeyError` on a missing topic key. -/
def async_update_listeners (reg : ListenerRegistry) (data : Option Snapshot) :
    Option (List Nat) :=
  match data with
  | none => some (reg.baseListeners.map Prod.fst)
  | some snap => do
      let alarmPart ←
        if snap.alarmChanged then do
          let a ← dictLookup reg.listenerDict ALARM_CONTEXT
          pure [a]
        else pure []
      let zoneParts ← zoneCallbacks reg.listenerDict snap.changedZones
      let c ← dictLookup reg.listenerDict CONNECTION_STATUS_CONTEXT
      let n ← dictLookup reg.listenerDict NEXT_REFRESH_CONTEXT
      pure (alarmPart ++ zoneParts ++ [c, n])

/-- A concrete registry with one listener per topic appearing in the sample
snapshot `{ alarmChanged := true, changedZones := [2] }`, used to instantiate
the fan-out claims. -/
def sampleRegistry : ListenerRegistry :=
  { baseListeners :=
      [(1, "Alarm"), (2, "Zone 2"), (3, "Zone 2 Trouble"),
       (4, "ConnectionStatus"), (5, "NextRefresh")]
    listenerDict :=
      [("Alarm", 1), ("Zone 2", 2), ("Zone 2 Trouble", 3),
       ("ConnectionStatus", 4), ("NextRefresh", 5)] }

/-- A concrete snapshot: the alarm changed and zone 2 changed. -/
def sampleSnapshot : Snapshot := { alarmChanged := true, changedZones := [2] }

/-- The coordinator bookkeeping one loop cycle reads and writes:
`self.data`, `self.last_update_success` and whether `self.last_exception`
is set. -/
structure CoordState where
  data : Option Snapshot
  lastUpdateSuccess : Bool
  hasLastException : Bool
deriving DecidableEq, Repr

/-- What one `await self._adt_pulse.wait_for_update()` call does: return a
snapshot, or raise `PulseLoginException`, `PulseExceptionWithRetry`,
`PulseExceptionWithBackoff`, `CancelledError`, or an unknown exception. -/
inductive WaitOutcome where
  | ok (s : Snapshot)
  | loginError
  | retryDeadline
  | backoff
  | cancelled
  | unknown
deriving DecidableEq, Repr

/-- Observable events of one loop cycle, in program order: `fanOut d` is an
invocation of `async_update_listeners` while `self.data = d`; `startReauth`
is `config_entry.async_start_reauth`. -/
inductive LoopEvent where
  | fanOut (d : Option Snapshot)
  | startReauth
deriving DecidableEq, Repr

/-- How one loop cycle ends: continue with the next iteration, return
(terminate the loop), or re-raise to the host. -/
inductive CycleExit where
  | next
  | terminated
  | raised
deriving DecidableEq, Repr

/-- Modelled from the spec: the Home Assistant `DataUpdateCoordinator` base
class's `async_set_update_error` is not under `src/`.  Per the contract the
source comment documents ("async_set_update_error will only notify listeners
on first error; it also doesn't reset data") and spec section 4.2: it records
the exception, and only when the previous cycle had succeeded marks the update
failed and notifies the listeners (with `self.data` still holding the stale
snapshot). -/
def async_set_update_error (st : CoordState) : CoordState × List LoopEvent :=
  if st.lastUpdateSuccess then
    ({ data := st.data, lastUpdateSuccess := false, hasLastException := true },
     [LoopEvent.fanOut st.data])
  else
    ({ data := st.data, lastUpdateSuccess := false, hasLastException := true },
     [])

/-- Modelled from the spec: the Home Assistant `DataUpdateCoordinator` base
class's `async_set_updated_data` is not under `src/`.  Per its contract and
spec section 4.2 (store the returned snapshot and invoke fan-out): it stores
the data, marks the update successful and notifies the listeners. -/
def async_set_updated_data (st : CoordState) (d : Option Snapshot) :
    CoordState × List LoopEvent :=
  ({ data := d, lastUpdateSuccess := true, hasLastException := st.hasLastException },
   [LoopEvent.fanOut d])

/-- The shared `except PulseExceptionWithRetry / PulseExceptionWithBackoff`
path of `_async_update_data` together with its `finally` clause:
`async_set_update_error(ex)`, then `self.data = None`, then
`if not self.last_update_success: self.async_update_listeners()`. -/
def retryBranch (st : CoordState) : CoordState × List LoopEvent × CycleExit :=
  let r := async_set_update_error st
  let st2 : CoordState :=
    { data := none, lastUpdateSuccess := r.1.lastUpdateSuccess,
      hasLastException := r.1.hasLastException }
  let evs2 : List LoopEvent :=
    if st2.lastUpdateSuccess then [] else [LoopEvent.fanOut st2.data]
  (st2, r.2 ++ evs2, CycleExit.next)

/-- One iteration of the `while` loop in
`ADTPulseDataUpdateCoordinator._async_update_data`, as a function of the
outcome of the awaited `wait_for_update` call.  Note the `try/except/finally`
structure: the `finally` clause also runs when an `except` handler returns or
re-raises, and since `update_exception` is only assigned in the retry and
backoff handlers, every other path runs the `else` arm of the `finally`
(`self.last_exception = None; self.async_set_updated_data(data)`) with the
local `data` still `None` unless `wait_for_update` returned. -/
def update_cycle (st : CoordState) (w : WaitOutcome) :
    CoordState × List LoopEvent × CycleExit :=
  match w with
  | WaitOutcome.ok s =>
      let st1 : CoordState :=
        { data := st.data, lastUpdateSuccess := st.lastUpdateSuccess,
          hasLastException := false }
      let r := async_set_updated_data st1 (some s)
      (r.1, r.2, CycleExit.next)
  | WaitOutcome.loginError =>
      let st1 : CoordState :=
        { data := st.data, lastUpdateSuccess := st.lastUpdateSuccess,
          hasLastException := false }
      let r := async_set_updated_data st1 none
      (r.1, LoopEvent.startReauth :: r.2, CycleExit.terminated)
  | WaitOutcome.retryDeadline => retryBranch st
  | WaitOutcome.backoff => retryBranch st
  | WaitOutcome.cancelled =>
      let st1 : CoordState :=
        { data := st.data, lastUpdateSuccess := st.lastUpdateSuccess,
          hasLastException := false }
      let r := async_set_updated_data st1 none
      (r.1, r.2, CycleExit.terminated)
  | WaitOutcome.unknown =>
      let st1 : CoordState :=
        { data := st.data, lastUpdateSuccess := st.lastUpdateSuccess,
          hasLastException := false }
      let r := async_set_updated_data st1 none
      (r.1, r.2, CycleExit.raised)

/-! ### Claims about the alarm state machine -/

/-- Claim C1: the claim states that the bypass arm variants
(`async_alarm_arm_custom_bypass`, `async_alarm_arm_force_stay`) skip the
opened/tripped-zone check and proceed to the remote call when the panel is
disarmed and a zone is open.  The code does not: `_check_if_system_armable`
only skips the `system_can_be_armed` check when `new_state == FORCE_ARM`
(the string `"force arm"`), but the bypass entry points pass the enum values
`armed_custom_bypass` and `armed_home`, which never equal that sentinel, so
with the panel disarmed, a zone open (`system_can_be_armed` false) and the
gateway online, both bypass commands fail with the cannot-arm error and issue
no remote call — exactly like the plain arm-away command.  This theorem
evaluates the code at that failing input. -/
theorem claim_C1_bypass_check_not_skipped :
    runCommand AlarmCommand.armCustomBypass none
      { status := ADTStatus.off, gateway_online := true,
        system_can_be_armed := false, remote := RemoteOutcome.ok true } =
      { finalAssumed := none, trace := [], error := some CmdError.cannotArm } ∧
    runCommand AlarmCommand.armForceStay none
      { status := ADTStatus.off, gateway_online := true,
        system_can_be_armed := false, remote := RemoteOutcome.ok true } =
      { finalAssumed := none, trace := [], error := some CmdError.cannotArm } ∧
    runCommand AlarmCommand.armAway none
      { status := ADTStatus.off, gateway_online := true,
        system_can_be_armed := false, remote := RemoteOutcome.ok true } =
      { finalAssumed := none, trace := [], error := some CmdError.cannotArm } := by
  decide

/-- Claim C3 counterexample: the claim states that Assumed State is absent at
the moment every command operation returns, whether it returns normally or
with the command-rejected error.  It is not: an offline disarm whose awaited
remote call raises leaves Assumed State at `some disarmed` (the offline
target, never cleared since the clearing assignment is skipped on the
exception), and the next disarm then finds the resolved state equal to its
target, takes the idempotent early return, and returns normally — with no
error and Assumed State still `some disarmed`. -/
theorem claim_C3_counterexample :
    (runCommand AlarmCommand.disarm none
      { status := ADTStatus.home, gateway_online := false,
        system_can_be_armed := true, remote := RemoteOutcome.exn }).finalAssumed =
      some AlarmState.disarmed ∧
    (runCommand AlarmCommand.disarm (some AlarmState.disarmed)
      { status := ADTStatus.home, gateway_online := false,
        system_can_be_armed := true, remote := RemoteOutcome.ok true }).error = none ∧
    (runCommand AlarmCommand.disarm (some AlarmState.disarmed)
      { status := ADTStatus.home, gateway_online := false,
        system_can_be_armed := true, remote := RemoteOutcome.ok true }).finalAssumed ≠
      none := by
  decide

/-- Claim C3, amended: every command operation that is entered with Assumed
State absent and returns normally or fails with the command-rejected
condition has Assumed State `none` at the moment it returns, and on the
command-rejected path the cleared state is published (the last event before
the raise is a publish with Assumed State `none`).  The entry condition is
necessary: an operation entered with Assumed State still set — reachable
after a remote-call exception left the marker in place — can return normally
from the idempotent path with Assumed State still non-absent. -/
theorem claim_C3_assumed_cleared_on_return :
    ∀ (cmd : AlarmCommand) (env : PanelEnv),
      ((runCommand cmd none env).error = none ∨
        (∃ t, (runCommand cmd none env).error = some (CmdError.commandRejected t))) →
      (runCommand cmd none env).finalAssumed = none ∧
      ((∃ t, (runCommand cmd none env).error = some (CmdError.commandRejected t)) →
        (runCommand cmd none env).trace.getLast? = some (TraceEvent.publish none)) := by
  decide

/-- Claim C3 witness: arm-away with the panel disarmed, gateway online and the
remote call returning `False` fails with command-rejected, with Assumed State
cleared and the cleared state published last. -/
theorem claim_C3_witness :
    (((runCommand AlarmCommand.armAway none
        { status := ADTStatus.off, gateway_online := true,
          system_can_be_armed := true, remote := RemoteOutcome.ok false }).error = none ∨
      (∃ t, (runCommand AlarmCommand.armAway none
        { status := ADTStatus.off, gateway_online := true,
          system_can_be_armed := true, remote := RemoteOutcome.ok false }).error =
          some (CmdError.commandRejected t)))) ∧
    ((runCommand AlarmCommand.armAway none
        { status := ADTStatus.off, gateway_online := true,
          system_can_be_armed := true, remote := RemoteOutcome.ok false }).finalAssumed = none ∧
      ((∃ t, (runCommand AlarmCommand.armAway none
          { status := ADTStatus.off, gateway_online := true,
            system_can_be_armed := true, remote := RemoteOutcome.ok false }).error =
            some (CmdError.commandRejected t)) →
        (runCommand AlarmCommand.armAway none
          { status := ADTStatus.off, gateway_online := true,
            system_can_be_armed := true, remote := RemoteOutcome.ok false }).trace.getLast? =
          some (TraceEvent.publish none))) :=
  ⟨by decide,
   claim_C3_assumed_cleared_on_return AlarmCommand.armAway
     { status := ADTStatus.off, gateway_online := true,
       system_can_be_armed := true, remote := RemoteOutcome.ok false } (by decide)⟩

/-- Claim C5 counterexample: the claim states that a command whose target
equals the current resolved state is a no-op that raises no error.  With
remote status away and no Assumed State, requesting arm-away (target equals
the resolved state `armed_away`) raises the conflicting-state error instead:
the armable precondition check runs before the idempotence check. -/
theorem claim_C5_counterexample :
    alarm_state none ADTStatus.away = AlarmCommand.armAway.action ∧
    (runCommand AlarmCommand.armAway none
      { status := ADTStatus.away, gateway_online := true,
        system_can_be_armed := true, remote := RemoteOutcome.ok true }).error =
      some (CmdError.conflictingState AlarmState.armed_away) := by
  decide

/-- Claim C5, amended: if the resolved current state already equals the
requested target, no remote command is issued and the Assumed State is
unchanged; the operation is a silent no-op (warning only) for disarm, but for
every arm command the precondition check fires first and the operation fails
with a conflicting-state error naming that state. -/
theorem claim_C5_amended_idempotent :
    ∀ (cmd : AlarmCommand) (assumed : Option AlarmState) (env : PanelEnv),
      alarm_state assumed env.status = cmd.action →
      (runCommand cmd assumed env).finalAssumed = assumed ∧
      TraceEvent.remoteCall ∉ (runCommand cmd assumed env).trace ∧
      (cmd = AlarmCommand.disarm → (runCommand cmd assumed env).error = none) ∧
      (cmd ≠ AlarmCommand.disarm →
        (runCommand cmd assumed env).error =
          some (CmdError.conflictingState cmd.action)) := by
  decide

/-- Claim C5 witness: disarm with remote status off (resolved state equals the
disarmed target) is a silent no-op: no remote call, Assumed State unchanged,
no error. -/
theorem claim_C5_witness :
    alarm_state none ADTStatus.off = AlarmCommand.disarm.action ∧
    ((runCommand AlarmCommand.disarm none
        { status := ADTStatus.off, gateway_online := true,
          system_can_be_armed := true, remote := RemoteOutcome.ok true }).finalAssumed = none ∧
      TraceEvent.remoteCall ∉ (runCommand AlarmCommand.disarm none
        { status := ADTStatus.off, gateway_online := true,
          system_can_be_armed := true, remote := RemoteOutcome.ok true }).trace ∧
      (AlarmCommand.disarm = AlarmCommand.disarm →
        (runCommand AlarmCommand.disarm none
          { status := ADTStatus.off, gateway_online := true,
            system_can_be_armed := true, remote := RemoteOutcome.ok true }).error = none) ∧
      (AlarmCommand.disarm ≠ AlarmCommand.disarm →
        (runCommand AlarmCommand.disarm none
          { status := ADTStatus.off, gateway_online := true,
            system_can_be_armed := true, remote := RemoteOutcome.ok true }).error =
          some (CmdError.conflictingState AlarmCommand.disarm.action))) :=
  ⟨by decide,
   claim_C5_amended_idempotent AlarmCommand.disarm none
     { status := ADTStatus.off, gateway_online := true,
       system_can_be_armed := true, remote := RemoteOutcome.ok true } (by decide)⟩

/-- Claim C7: for every arm command (every command other than disarm), if the
resolved current state is not disarmed, the operation fails with a
conflicting-state error naming the current resolved state, issues no remote
command (empty trace) and leaves the Assumed State unchanged. -/
theorem claim_C7_arm_precondition :
    ∀ (cmd : AlarmCommand) (assumed : Option AlarmState) (env : PanelEnv),
      cmd ≠ AlarmCommand.disarm →
      alarm_state assumed env.status ≠ AlarmState.disarmed →
      runCommand cmd assumed env =
        { finalAssumed := assumed, trace := [],
          error := some (CmdError.conflictingState (alarm_state assumed env.status)) } := by
  decide

/-- Claim C7 witness (spec scenario B): remote status away, request arm-home:
the operation fails with conflicting-state `armed_away`, no remote call. -/
theorem claim_C7_witness :
    AlarmCommand.armHome ≠ AlarmCommand.disarm ∧
    alarm_state none ADTStatus.away ≠ AlarmState.disarmed ∧
    runCommand AlarmCommand.armHome none
      { status := ADTStatus.away, gateway_online := true,
        system_can_be_armed := true, remote := RemoteOutcome.ok true } =
      { finalAssumed := none, trace := [],
        error := some (CmdError.conflictingState (alarm_state none ADTStatus.away)) } :=
  ⟨by decide, by decide,
   claim_C7_arm_precondition AlarmCommand.armHome none
     { status := ADTStatus.away, gateway_online := true,
       system_can_be_armed := true, remote := RemoteOutcome.ok true }
     (by decide) (by decide)⟩

/-- Claim C6: for every command operation that passes the armable precondition
and the idempotence check, the first two observable events are: a publish of
the new Assumed State — the requested target itself when the gateway is
offline, else the transient disarming marker for disarm and the transient
arming marker for any arm — followed by the await of the remote command. -/
theorem claim_C6_optimistic_transition :
    ∀ (cmd : AlarmCommand) (assumed : Option AlarmState) (env : PanelEnv),
      (cmd.action ≠ AlarmState.disarmed →
        check_if_system_armable (alarm_state assumed env.status) cmd.action
          env.system_can_be_armed = none) →
      alarm_state assumed env.status ≠ cmd.action →
      (runCommand cmd assumed env).trace.take 2 =
        [TraceEvent.publish
          (if env.gateway_online = false then some cmd.action
           else if cmd.action = AlarmState.disarmed then some AlarmState.disarming
           else some AlarmState.arming),
         TraceEvent.remoteCall] := by
  decide

/-- Claim C6 witness (spec scenario C): gateway offline, request arm-night
from the disarmed panel: the Assumed State is set directly to `armed_night`
(no transient marker) and published before the remote call is awaited. -/
theorem claim_C6_witness :
    (AlarmCommand.armNight.action ≠ AlarmState.disarmed →
      check_if_system_armable (alarm_state none ADTStatus.off)
        AlarmCommand.armNight.action true = none) ∧
    alarm_state none ADTStatus.off ≠ AlarmCommand.armNight.action ∧
    (runCommand AlarmCommand.armNight none
      { status := ADTStatus.off, gateway_online := false,
        system_can_be_armed := true, remote := RemoteOutcome.ok true }).trace.take 2 =
      [TraceEvent.publish (some AlarmState.armed_night), TraceEvent.remoteCall] :=
  ⟨by decide, by decide,
   claim_C6_optimistic_transition AlarmCommand.armNight none
     { status := ADTStatus.off, gateway_online := false,
       system_can_be_armed := true, remote := RemoteOutcome.ok true }
     (by decide) (by decide)⟩

/-- Claim C10: for every command operation that passes its checks, if the
awaited remote call raises an exception instead of returning a boolean, the
operation propagates the exception and the Assumed State is not cleared: it
stays at the transient marker (or the offline target), the trace ends at the
remote call with no clearing publish, and the clearing to `none` happens
exactly on a normal boolean return of the remote call (for both boolean
results). -/
theorem claim_C10_exception_keeps_assumed :
    ∀ (cmd : AlarmCommand) (assumed : Option AlarmState) (env : PanelEnv),
      (cmd.action ≠ AlarmState.disarmed →
        check_if_system_armable (alarm_state assumed env.status) cmd.action
          env.system_can_be_armed = none) →
      alarm_state assumed env.status ≠ cmd.action →
      env.remote = RemoteOutcome.exn →
      (runCommand cmd assumed env).error = some CmdError.remoteException ∧
      (runCommand cmd assumed env).finalAssumed =
        (if env.gateway_online = false then some cmd.action
         else if cmd.action = AlarmState.disarmed then some AlarmState.disarming
         else some AlarmState.arming) ∧
      (runCommand cmd assumed env).finalAssumed ≠ none ∧
      (runCommand cmd assumed env).trace =
        [TraceEvent.publish (runCommand cmd assumed env).finalAssumed,
         TraceEvent.remoteCall] ∧
      (∀ b : Bool,
        (runCommand cmd assumed
          { status := env.status, gateway_online := env.gateway_online,
            system_can_be_armed := env.system_can_be_armed,
            remote := RemoteOutcome.ok b }).finalAssumed = none) := by
  decide

/-- Claim C10 witness: disarm from the armed-away panel with the gateway
online and the remote call raising: the error propagates and the Assumed
State stays at the transient disarming marker, while a boolean return would
have cleared it. -/
theorem claim_C10_witness :
    (AlarmCommand.disarm.action ≠ AlarmState.disarmed →
      check_if_system_armable (alarm_state none ADTStatus.away)
        AlarmCommand.disarm.action true = none) ∧
    alarm_state none ADTStatus.away ≠ AlarmCommand.disarm.action ∧
    ((runCommand AlarmCommand.disarm none
        { status := ADTStatus.away, gateway_online := true,
          system_can_be_armed := true, remote := RemoteOutcome.exn }).error =
        some CmdError.remoteException ∧
      (runCommand AlarmCommand.disarm none
        { status := ADTStatus.away, gateway_online := true,
          system_can_be_armed := true, remote := RemoteOutcome.exn }).finalAssumed =
        (if (true : Bool) = false then some AlarmCommand.disarm.action
         else if AlarmCommand.disarm.action = AlarmState.disarmed then
           some AlarmState.disarming
         else some AlarmState.arming) ∧
      (runCommand AlarmCommand.disarm none
        { status := ADTStatus.away, gateway_online := true,
          system_can_be_armed := true, remote := RemoteOutcome.exn }).finalAssumed ≠ none ∧
      (runCommand AlarmCommand.disarm none
        { status := ADTStatus.away, gateway_online := true,
          system_can_be_armed := true, remote := RemoteOutcome.exn }).trace =
        [TraceEvent.publish (runCommand AlarmCommand.disarm none
          { status := ADTStatus.away, gateway_online := true,
            system_can_be_armed := true, remote := RemoteOutcome.exn }).finalAssumed,
         TraceEvent.remoteCall] ∧
      (∀ b : Bool,
        (runCommand AlarmCommand.disarm none
          { status := ADTStatus.away, gateway_online := true,
            system_can_be_armed := true, remote := RemoteOutcome.ok b }).finalAssumed =
          none)) :=
  ⟨by decide, by decide,
   claim_C10_exception_keeps_assumed AlarmCommand.disarm none
     { status := ADTStatus.away, gateway_online := true,
       system_can_be_armed := true, remote := RemoteOutcome.exn }
     (by decide) (by decide) (by decide)⟩

/-! ### Claims about the update coordinator loop -/

/-- Claim C2 counterexample: the claim states that across a run of
consecutive retryable failures following a successful cycle, fan-out is
invoked exactly once, on the first failure.  Starting from a successful-cycle
state, a first backoff failure invokes fan-out twice (once inside the
error-recording helper while the stale snapshot is still set, once after the
snapshot is cleared, because `not self.last_update_success` is always true
after the helper ran), and a second consecutive backoff failure invokes
fan-out again. -/
theorem claim_C2_counterexample :
    update_cycle
        { data := some { alarmChanged := false, changedZones := [] },
          lastUpdateSuccess := true, hasLastException := false }
        WaitOutcome.backoff =
      ({ data := none, lastUpdateSuccess := false, hasLastException := true },
       [LoopEvent.fanOut (some { alarmChanged := false, changedZones := [] }),
        LoopEvent.fanOut none],
       CycleExit.next) ∧
    update_cycle
        { data := none, lastUpdateSuccess := false, hasLastException := true }
        WaitOutcome.backoff =
      ({ data := none, lastUpdateSuccess := false, hasLastException := true },
       [LoopEvent.fanOut none],
       CycleExit.next) := by
  decide

/-- Claim C2, amended: on every retryable failure (retry-with-deadline or
retry-with-backoff) the handler records the update error and clears the
snapshot to `None`, but fan-out is invoked on every failure of the run — twice
on the first failure after a success (once while the stale snapshot is still
set, once after it is cleared) and once on each subsequent consecutive
failure — because the `not self.last_update_success` guard is always true
once the error has been recorded. -/
theorem claim_C2_amended_retry_fanout :
    ∀ (st : CoordState) (w : WaitOutcome),
      (w = WaitOutcome.retryDeadline ∨ w = WaitOutcome.backoff) →
      update_cycle st w =
        ({ data := none, lastUpdateSuccess := false, hasLastException := true },
         (if st.lastUpdateSuccess then
            [LoopEvent.fanOut st.data, LoopEvent.fanOut none]
          else [LoopEvent.fanOut none]),
         CycleExit.next) := by
  intro st w hw
  rcases hw with h | h <;> subst h <;> rcases st with ⟨d, ls, he⟩ <;> cases ls <;> rfl

/-- Claim C2 witness: a retry-with-deadline failure right after a successful
cycle clears the snapshot, records the error and fans out twice. -/
theorem claim_C2_witness :
    (WaitOutcome.retryDeadline = WaitOutcome.retryDeadline ∨
      WaitOutcome.retryDeadline = WaitOutcome.backoff) ∧
    update_cycle
        { data := some { alarmChanged := true, changedZones := [3] },
          lastUpdateSuccess := true, hasLastException := false }
        WaitOutcome.retryDeadline =
      ({ data := none, lastUpdateSuccess := false, hasLastException := true },
       [LoopEvent.fanOut (some { alarmChanged := true, changedZones := [3] }),
        LoopEvent.fanOut none],
       CycleExit.next) :=
  ⟨Or.inl rfl,
   claim_C2_amended_retry_fanout
     { data := some { alarmChanged := true, changedZones := [3] },
       lastUpdateSuccess := true, hasLastException := false }
     WaitOutcome.retryDeadline (Or.inl rfl)⟩

/-- Claim C8 counterexample: the claim states that after the cancellation
signal is observed, the loop terminates with no further fan-out.  The loop
does terminate, but the `finally` clause still runs on the `return` from the
`except CancelledError` handler, takes its no-error arm, and calls
`async_set_updated_data(None)` — which notifies every listener: one full
fan-out is delivered after the cancellation was observed. -/
theorem claim_C8_counterexample :
    update_cycle
        { data := some { alarmChanged := true, changedZones := [] },
          lastUpdateSuccess := true, hasLastException := false }
        WaitOutcome.cancelled =
      ({ data := none, lastUpdateSuccess := true, hasLastException := false },
       [LoopEvent.fanOut none],
       CycleExit.terminated) ∧
    ([LoopEvent.fanOut none] ≠ ([] : List LoopEvent)) := by
  decide

/-- Claim C8, amended: when the wait-for-update call is cancelled the loop
terminates, but before exiting the `finally` clause commits a `None` snapshot
(marking the last update successful and clearing the recorded error) and
emits exactly one full fan-out; no snapshot with data is committed. -/
theorem claim_C8_amended_cancellation :
    ∀ st : CoordState,
      update_cycle st WaitOutcome.cancelled =
        ({ data := none, lastUpdateSuccess := true, hasLastException := false },
         [LoopEvent.fanOut none],
         CycleExit.terminated) := by
  intro st
  rfl

/-! ### Claims about the topic listener registry -/

/-- Looking up the key just inserted returns the inserted value: Python dict
assignment semantics of the modelled `dictInsert`. -/
theorem dictLookup_dictInsert_self (d : List (String × Nat)) (k : String) (v : Nat) :
    dictLookup (dictInsert d k v) k = some v := by
  induction d with
  | nil => simp [dictInsert, dictLookup]
  | cons p rest ih =>
      by_cases h : p.1 = k
      · simp [dictInsert, dictLookup, h]
      · simp [dictInsert, dictLookup, h, ih]

/-- Inserting into a dict whose key occurs at most once leaves exactly one
entry for that key. -/
theorem countKey_dictInsert (d : List (String × Nat)) (k : String) (v : Nat)
    (h : countKey d k ≤ 1) : countKey (dictInsert d k v) k = 1 := by
  induction d with
  | nil => simp [dictInsert, countKey]
  | cons p rest ih =>
      by_cases hp : p.1 = k
      · have hck : countKey (p :: rest) k = 1 + countKey rest k := by
          simp [countKey, hp]
        have hrest : countKey rest k = 0 := by omega
        simp [dictInsert, hp, countKey, hrest]
      · have hck : countKey (p :: rest) k = countKey rest k := by
          simp [countKey, hp]
        have ih2 := ih (by omega)
        simp [dictInsert, hp, countKey, ih2]

/-- The zone loop of `async_update_listeners` invokes exactly the zone and
zone-trouble listeners of the changed zone ids, provided each is registered. -/
theorem zoneCallbacks_mem (d : List (String × Nat)) (zs : List Nat)
    (hz : ∀ z ∈ zs, (dictLookup d (zoneContext z)).isSome ∧
        (dictLookup d (zoneTroubleContext z)).isSome) :
    ∃ l, zoneCallbacks d zs = some l ∧
      ∀ c, c ∈ l ↔ ∃ z ∈ zs, dictLookup d (zoneContext z) = some c ∨
          dictLookup d (zoneTroubleContext z) = some c := by
  induction zs with
  | nil => exact ⟨[], rfl, by simp⟩
  | cons z zs ih =>
      have hhead := hz z (List.mem_cons_self z zs)
      obtain ⟨a, ha⟩ := Option.isSome_iff_exists.mp hhead.1
      obtain ⟨b, hb⟩ := Option.isSome_iff_exists.mp hhead.2
      obtain ⟨l, hl, hmem⟩ := ih (fun x hx => hz x (List.mem_cons_of_mem z hx))
      refine ⟨a :: b :: l, ?_, ?_⟩
      · simp [zoneCallbacks, ha, hb, hl]
      · intro c
        simp only [List.mem_cons, hmem]
        constructor
        · rintro (rfl | rfl | ⟨x, hx, hcase⟩)
          · exact ⟨z, Or.inl rfl, Or.inl ha⟩
          · exact ⟨z, Or.inl rfl, Or.inr hb⟩
          · exact ⟨x, Or.inr hx, hcase⟩
        · rintro ⟨x, hx, hcase⟩
          rcases hx with heq | hx2
          · subst heq
            rcases hcase with hcc | hcc
            · rw [ha] at hcc
              exact Or.inl (Option.some_inj.mp hcc).symm
            · rw [hb] at hcc
              exact Or.inr (Or.inl (Option.some_inj.mp hcc).symm)
          · exact Or.inr (Or.inr ⟨x, hx2, hcase⟩)

/-- Claim C4: fan-out with a `None` snapshot invokes every registered
listener; fan-out with a snapshot invokes the alarm listener if and only if
the alarm-changed flag is set, the zone and zone-trouble listeners for each
changed zone id, the connection-status and next-refresh listeners
unconditionally, and no other listener — provided a listener is registered
for every topic the snapshot touches. -/
theorem claim_C4_fanout_selection (reg : ListenerRegistry) (snap : Snapshot)
    (hA : snap.alarmChanged = true →
      (dictLookup reg.listenerDict ALARM_CONTEXT).isSome)
    (hz : ∀ z ∈ snap.changedZones,
      (dictLookup reg.listenerDict (zoneContext z)).isSome ∧
      (dictLookup reg.listenerDict (zoneTroubleContext z)).isSome)
    (hc : (dictLookup reg.listenerDict CONNECTION_STATUS_CONTEXT).isSome)
    (hn : (dictLookup reg.listenerDict NEXT_REFRESH_CONTEXT).isSome) :
    async_update_listeners reg none = some (reg.baseListeners.map Prod.fst) ∧
    ∃ l, async_update_listeners reg (some snap) = some l ∧
      ∀ c, c ∈ l ↔
        ((snap.alarmChanged = true ∧
            dictLookup reg.listenerDict ALARM_CONTEXT = some c) ∨
         (∃ z ∈ snap.changedZones,
            dictLookup reg.listenerDict (zoneContext z) = some c ∨
            dictLookup reg.listenerDict (zoneTroubleContext z) = some c) ∨
         dictLookup reg.listenerDict CONNECTION_STATUS_CONTEXT = some c ∨
         dictLookup reg.listenerDict NEXT_REFRESH_CONTEXT = some c) := by
  refine ⟨rfl, ?_⟩
  obtain ⟨c0, hc0⟩ := Option.isSome_iff_exists.mp hc
  obtain ⟨n0, hn0⟩ := Option.isSome_iff_exists.mp hn
  obtain ⟨zl, hzl, hzmem⟩ := zoneCallbacks_mem reg.listenerDict snap.changedZones hz
  cases hAC : snap.alarmChanged with
  | false =>
      refine ⟨zl ++ [c0, n0], ?_, ?_⟩
      · simp [async_update_listeners, hAC, hzl, hc0, hn0]
      · intro c
        simp only [List.mem_append, List.mem_cons, List.not_mem_nil, or_false,
          hzmem, hAC, Bool.false_eq_true, false_and, false_or, hc0, hn0,
          Option.some.injEq, eq_comm]
  | true =>
      obtain ⟨a0, ha0⟩ := Option.isSome_iff_exists.mp (hA hAC)
      refine ⟨a0 :: (zl ++ [c0, n0]), ?_, ?_⟩
      · simp [async_update_listeners, hAC, ha0, hzl, hc0, hn0]
      · intro c
        simp only [List.mem_cons, List.mem_append, List.not_mem_nil, or_false,
          hzmem, hAC, true_and, hc0, hn0, ha0, Option.some.injEq, eq_comm]

/-- Claim C4 witness: in a registry with one listener per topic, the snapshot
`{ alarmChanged := true, changedZones := [2] }` fans out to exactly the alarm
listener, the listeners of zone 2 and its trouble topic, and the
connection-status and next-refresh listeners. -/
theorem claim_C4_witness :
    ((sampleSnapshot.alarmChanged = true →
        (dictLookup sampleRegistry.listenerDict ALARM_CONTEXT).isSome) ∧
      (∀ z ∈ sampleSnapshot.changedZones,
        (dictLookup sampleRegistry.listenerDict (zoneContext z)).isSome ∧
        (dictLookup sampleRegistry.listenerDict (zoneTroubleContext z)).isSome) ∧
      (dictLookup sampleRegistry.listenerDict CONNECTION_STATUS_CONTEXT).isSome ∧
      (dictLookup sampleRegistry.listenerDict NEXT_REFRESH_CONTEXT).isSome) ∧
    (async_update_listeners sampleRegistry none =
        some (sampleRegistry.baseListeners.map Prod.fst) ∧
      ∃ l, async_update_listeners sampleRegistry (some sampleSnapshot) = some l ∧
        ∀ c, c ∈ l ↔
          ((sampleSnapshot.alarmChanged = true ∧
              dictLookup sampleRegistry.listenerDict ALARM_CONTEXT = some c) ∨
           (∃ z ∈ sampleSnapshot.changedZones,
              dictLookup sampleRegistry.listenerDict (zoneContext z) = some c ∨
              dictLookup sampleRegistry.listenerDict (zoneTroubleContext z) = some c) ∨
           dictLookup sampleRegistry.listenerDict CONNECTION_STATUS_CONTEXT = some c ∨
           dictLookup sampleRegistry.listenerDict NEXT_REFRESH_CONTEXT = some c)) :=
  ⟨⟨by decide, by decide, by decide, by decide⟩,
   claim_C4_fanout_selection sampleRegistry sampleSnapshot
     (by decide) (by decide) (by decide) (by decide)⟩

/-- Claim C9 counterexample: the claim states that after re-registering a
topic, a fan-out invokes exactly one callback for it, the most recently
registered, never both.  Registering callback 1 and then callback 2 for the
alarm topic does replace the dictionary entry, but each registration also
appended to the base-class listener collection, so the full fan-out performed
whenever the snapshot is `None` invokes both the old callback 1 and the new
callback 2. -/
theorem claim_C9_counterexample :
    dictLookup
        (async_add_listener (async_add_listener emptyRegistry "Alarm" 1)
          "Alarm" 2).listenerDict "Alarm" = some 2 ∧
    async_update_listeners
        (async_add_listener (async_add_listener emptyRegistry "Alarm" 1)
          "Alarm" 2) none = some [1, 2] := by
  decide

/-- Claim C9, amended: registering a callback for a topic that already has
one replaces the entry in the topic dictionary — the dictionary keeps exactly
one slot per registered topic and a selective fan-out for the topic invokes
only the most recently registered callback — but every registration also
appends to the base-class listener collection, so a full (`None`-snapshot)
fan-out invokes both the old and the new callback unless the old registration
was deregistered. -/
theorem claim_C9_amended_replacement (reg : ListenerRegistry) (ctx : String)
    (c1 c2 : Nat) (h : countKey reg.listenerDict ctx ≤ 1) :
    dictLookup
        (async_add_listener (async_add_listener reg ctx c1) ctx c2).listenerDict
        ctx = some c2 ∧
    countKey
        (async_add_listener (async_add_listener reg ctx c1) ctx c2).listenerDict
        ctx = 1 ∧
    (async_add_listener (async_add_listener reg ctx c1) ctx c2).baseListeners =
      reg.baseListeners ++ [(c1, ctx), (c2, ctx)] ∧
    async_update_listeners
        (async_add_listener (async_add_listener reg ctx c1) ctx c2) none =
      some (reg.baseListeners.map Prod.fst ++ [c1, c2]) := by
  refine ⟨dictLookup_dictInsert_self _ _ _, ?_, ?_, ?_⟩
  · exact countKey_dictInsert _ _ _ (le_of_eq (countKey_dictInsert _ _ _ h))
  · simp [async_add_listener]
  · simp [async_update_listeners, async_add_listener]

/-- Claim C9 witness: registering callbacks 1 then 2 for the alarm topic in
the empty registry leaves one dictionary slot holding 2, while the base
collection holds both registrations. -/
theorem claim_C9_witness :
    countKey emptyRegistry.listenerDict "Alarm" ≤ 1 ∧
    (dictLookup
        (async_add_listener (async_add_listener emptyRegistry "Alarm" 1)
          "Alarm" 2).listenerDict "Alarm" = some 2 ∧
      countKey
        (async_add_listener (async_add_listener emptyRegistry "Alarm" 1)
          "Alarm" 2).listenerDict "Alarm" = 1 ∧
      (async_add_listener (async_add_listener emptyRegistry "Alarm" 1)
          "Alarm" 2).baseListeners =
        emptyRegistry.baseListeners ++ [(1, "Alarm"), (2, "Alarm")] ∧
      async_update_listeners
          (async_add_listener (async_add_listener emptyRegistry "Alarm" 1)
            "Alarm" 2) none =
        some (emptyRegistry.baseListeners.map Prod.fst ++ [1, 2])) :=
  ⟨by decide, claim_C9_amended_replacement emptyRegistry "Alarm" 1 2 (by decide)⟩

end ADTPulse
